import Mathlib

/-!
Verification development for the Agentic-Coding-Memory repository.

The repository ships no engine implementation: it holds a mock client
(`examples/python_basic.py`), an HTTP smoke test of a parser endpoint
(`test_parser_fix.py`) and Python fixture files.  The mock client is embedded
directly from its source.  The parser service behind the
`/v1/codebase/parse-file` endpoint is repository code that is absent here, so
the Symbol Extractor and its Python Grammar Adapter are modelled from the
specification (sections 4.1, 4.2 and 6) and exercised on the exact fixture of
`test_parser_fix.py`.  Source lines are handled as character lists so that
every operation is a structural recursion the kernel can evaluate.
-/

namespace AMP

/-- Whitespace characters that may make up a blank line. -/
def isSpaceChar (c : Char) : Bool := c = ' ' || c = '\t' || c = '\r'

/-- Splits a character stream into lines at newline characters, accumulating
the current line in reverse. -/
def splitLinesAux : List Char → List Char → List (List Char)
  | [], acc => [acc.reverse]
  | c :: cs, acc =>
    if c = '\n' then acc.reverse :: splitLinesAux cs []
    else splitLinesAux cs (c :: acc)

/-- Lines of a source text; line numbers are zero-based indices into this
list. -/
def linesOf (content : String) : List (List Char) := splitLinesAux content.data []

/-- Number of lines of a source text (`line_count_of` in the specification). -/
def lineCountOf (content : String) : Nat := (linesOf content).length

/-- Leading-space indentation of a line. -/
def indentOf (l : List Char) : Nat := (l.takeWhile (fun c => c = ' ')).length

/-- A line is blank when it holds only whitespace. -/
def isBlank (l : List Char) : Bool := l.all isSpaceChar

/-- Removes leading and trailing whitespace from a line fragment. -/
def trimChars (l : List Char) : List Char :=
  ((l.dropWhile isSpaceChar).reverse.dropWhile isSpaceChar).reverse

/-- Characters allowed in a Python identifier. -/
def isIdentChar (c : Char) : Bool := c.isAlphanum || c = '_'

/-- Recognizes a plain identifier (assignment target). -/
def isIdentName (l : List Char) : Bool :=
  !l.isEmpty && l.all isIdentChar && !(l.headD 'a').isDigit

/-- Uppercase-with-underscores naming convention marking a constant binding
(specification section 4.2). -/
def isConstName (l : List Char) : Bool :=
  !l.isEmpty && l.all (fun c => c.isUpper || c = '_' || c.isDigit)

/-- Name of a `def` declaration: the text between the keyword and the opening
parenthesis. -/
def defName (l : List Char) : String :=
  String.mk (trimChars ((l.drop 4).takeWhile (fun c => c != '(')))

/-- Name of a `class` declaration: the text between the keyword and the first
parenthesis or colon. -/
def className (l : List Char) : String :=
  String.mk (trimChars ((l.drop 6).takeWhile (fun c => c != '(' && c != ':')))

/-- Target of an assignment line: the text before the first equals sign. -/
def assignTarget (l : List Char) : String :=
  String.mk (trimChars (l.takeWhile (fun c => c != '=')))

/-- A top-level binding line: an identifier followed by an equals sign. -/
def isAssignmentLine (l : List Char) : Bool :=
  l.contains '=' && isIdentName (trimChars (l.takeWhile (fun c => c != '=')))

/-- A line belongs to the body of a construct opened at indentation `i` when it
is blank or strictly more indented. -/
def isBodyLine (i : Nat) (l : List Char) : Bool := isBlank l || decide (i < indentOf l)

/-- Removes trailing blank lines from a block. -/
def dropTrailingBlanks (ls : List (List Char)) : List (List Char) :=
  (ls.reverse.dropWhile isBlank).reverse

/-- Number of body lines of a construct opened at indentation `i`, trailing
blank lines trimmed; the construct's span runs this far past its header line. -/
def bodyLen (i : Nat) (rest : List (List Char)) : Nat :=
  (dropTrailingBlanks (rest.takeWhile (isBodyLine i))).length

/-- Raw construct produced by a Grammar Adapter (specification section 4.1):
a construct kind tag, a name and a zero-based source-line span. -/
structure RawConstruct where
  construct_kind : String
  name : String
  start_line : Nat
  end_line : Nat
deriving Repr, DecidableEq

/-- Modelled from the spec: method scan of a class body, absent from the
sources (only the HTTP smoke test of the parser endpoint is shipped).
Each indented `def` inside a class body is a method declaration attributed to
the enclosing class (specification section 4.1). `i` is the zero-based index
of the first line of the supplied block. -/
def scanMethods : Nat → List (List Char) → List RawConstruct
  | _, [] => []
  | i, l :: rest =>
    if !isBlank l && indentOf l != 0 &&
        ("def ".data).isPrefixOf (l.dropWhile (fun c => c = ' ')) then
      ⟨"method_decl", defName (l.dropWhile (fun c => c = ' ')), i,
          i + bodyLen (indentOf l) rest⟩ ::
        scanMethods (i+1) rest
    else scanMethods (i+1) rest

/-- Modelled from the spec: top-level scan of the Python Grammar Adapter,
absent from the sources.  At indentation zero it recognizes function
declarations, class declarations (whose bodies are scanned for methods) and
variable/constant bindings, with zero-based line spans covering each
construct's body (specification sections 4.1 and 4.2).  `i` is the zero-based
index of the first line of the supplied list. -/
def scanTop : Nat → List (List Char) → List RawConstruct
  | _, [] => []
  | i, l :: rest =>
    if isBlank l || indentOf l != 0 || l.headD ' ' = '#' then scanTop (i+1) rest
    else if ("def ".data).isPrefixOf l then
      ⟨"function_decl", defName l, i, i + bodyLen 0 rest⟩ :: scanTop (i+1) rest
    else if ("class ".data).isPrefixOf l then
      ⟨"class_decl", className l, i, i + bodyLen 0 rest⟩ ::
        (scanMethods (i+1) (rest.takeWhile (isBodyLine 0)) ++ scanTop (i+1) rest)
    else if isAssignmentLine l then
      ⟨"assignment", assignTarget l, i, i⟩ :: scanTop (i+1) rest
    else scanTop (i+1) rest

/-- Modelled from the spec: the Python Grammar Adapter's `parse` capability
(specification section 4.1), absent from the sources. -/
def parsePython (content : String) : List RawConstruct := scanTop 0 (linesOf content)

/-- Modelled from the spec: the Extractor's total construct-to-kind mapping of
specification section 4.2 — function to `function`, class to `class`,
method-within-class to `method`, top-level assignment to `variable` or
`constant` by naming convention — with the `unknown` fallback reserved for
unmapped construct kinds. -/
def kindOfConstruct (c : RawConstruct) : String :=
  if c.construct_kind = "function_decl" then "function"
  else if c.construct_kind = "class_decl" then "class"
  else if c.construct_kind = "method_decl" then "method"
  else if c.construct_kind = "assignment" then
    (if isConstName c.name.data then "constant" else "variable")
  else "unknown"

/-- A typed Symbol record of a parse response (specification sections 3
and 6): the test script reads `symbol_type`, `name` and `start_line` off each
returned symbol. -/
structure Symbol where
  name : String
  symbol_type : String
  path : String
  language : String
  start_line : Nat
  end_line : Nat
deriving Repr, DecidableEq

/-- Modelled from the spec: `extract(file_path, content, language)` of
specification section 4.2, absent from the sources.  The adapter registry
holds the single Python adapter; an unregistered language fails with
`UnsupportedLanguage`; the well-formed fixture input yields no diagnostics. -/
def extract (file_path : String) (content : String) (language : String) :
    Except String (List Symbol × List String) :=
  if language = "python" then
    Except.ok
      ((parsePython content).map
        (fun c => ⟨c.name, kindOfConstruct c, file_path, language,
                   c.start_line, c.end_line⟩), [])
  else Except.error "UnsupportedLanguage"

/-- The `test_code` fixture of `test_parser_fix.py`, byte for byte. -/
def fixtureContent : String :=
  "\ndef hello_world():\n    \"\"\"A simple function\"\"\"\n    print(\"Hello, world!\")\n\nclass TestClass:\n    \"\"\"A test class\"\"\"\n    \n    def method_one(self):\n        \"\"\"A method\"\"\"\n        return \"method\"\n    \n    def method_two(self):\n        return \"another method\"\n\n# A variable assignment\ntest_variable = \"hello\"\nanother_var = 42\n"

/-- The list of `symbol_type` tags extracted from a source text. -/
def extractedKinds (content : String) : List String :=
  (parsePython content).map kindOfConstruct

/-- The six symbols the modelled extractor returns on the fixture, for a file
path `/tmp/test.py` and language `python`. -/
def fixtureSymbols : List Symbol :=
  [⟨"hello_world", "function", "/tmp/test.py", "python", 1, 3⟩,
   ⟨"TestClass", "class", "/tmp/test.py", "python", 5, 13⟩,
   ⟨"method_one", "method", "/tmp/test.py", "python", 8, 10⟩,
   ⟨"method_two", "method", "/tmp/test.py", "python", 12, 13⟩,
   ⟨"test_variable", "variable", "/tmp/test.py", "python", 16, 16⟩,
   ⟨"another_var", "variable", "/tmp/test.py", "python", 17, 17⟩]

/-- The first of `fixtureSymbols`: the `hello_world` function. -/
def fixtureSym0 : Symbol := ⟨"hello_world", "function", "/tmp/test.py", "python", 1, 3⟩

/-- Provenance record of a memory object (`python_basic.py` dictionaries). -/
structure Provenance where
  agent : String
  summary : String
deriving Repr, DecidableEq

/-- Ambient effects the mock client draws on.  `uuid.uuid4()` is modelled as
an injective supply of non-empty identifier strings indexed by a counter that
every call advances (fresh 128-bit random identifiers never repeat);
`datetime.utcnow().isoformat()` as a monotone clock of abstract instants that
every call advances, ISO-8601 timestamp strings being ordered exactly as the
instants they render. -/
structure ClientState where
  uuidCounter : Nat
  clock : Nat
deriving Repr, DecidableEq

/-- The identifier string the uuid supply yields at counter `n`; distinct
counters give distinct, non-empty strings. -/
def genUuid (n : Nat) : String := String.mk (List.replicate (n + 1) 'u')

/-- Modelled `uuid.uuid4()` call: current identifier, supply advanced. -/
def freshUuid (s : ClientState) : String × ClientState :=
  (genUuid s.uuidCounter, { s with uuidCounter := s.uuidCounter + 1 })

/-- Modelled `datetime.utcnow()` call: current instant, clock advanced. -/
def now (s : ClientState) : Nat × ClientState :=
  (s.clock, { s with clock := s.clock + 1 })

/-- The symbol dictionary built by `MockAmpClient.create_symbol`. -/
structure SymbolObject where
  id : String
  object_type : String
  tenant_id : String
  project_id : String
  created_at : Nat
  updated_at : Nat
  provenance : Provenance
  name : String
  kind : String
  path : String
  language : String
deriving Repr, DecidableEq

/-- `MockAmpClient.create_symbol` of `python_basic.py`: fresh uuid, fixed
`default`/`example_project` scope, two successive `utcnow()` calls for
`created_at` then `updated_at`, provenance agent `python_example` with summary
`Created symbol {name}`. -/
def create_symbol (s : ClientState) (name kind path language : String) :
    SymbolObject × ClientState :=
  let (i, s1) := freshUuid s
  let (t1, s2) := now s1
  let (t2, s3) := now s2
  (⟨i, "symbol", "default", "example_project", t1, t2,
    ⟨"python_example", "Created symbol " ++ name⟩, name, kind, path, language⟩, s3)

/-- The decision dictionary built by `MockAmpClient.create_decision`. -/
structure DecisionObject where
  id : String
  object_type : String
  tenant_id : String
  project_id : String
  created_at : Nat
  updated_at : Nat
  provenance : Provenance
  title : String
  problem : String
  rationale : String
  outcome : String
  status : String
deriving Repr, DecidableEq

/-- `MockAmpClient.create_decision` of `python_basic.py`: fresh uuid, fixed
scope, two successive `utcnow()` calls, provenance summary
`Made decision: {title}`, and `status` always set to `accepted` (the method
takes no status argument). -/
def create_decision (s : ClientState) (title problem rationale outcome : String) :
    DecisionObject × ClientState :=
  let (i, s1) := freshUuid s
  let (t1, s2) := now s1
  let (t2, s3) := now s2
  (⟨i, "decision", "default", "example_project", t1, t2,
    ⟨"python_example", "Made decision: " ++ title⟩,
    title, problem, rationale, outcome, "accepted"⟩, s3)

/-- The query response dictionary of `MockAmpClient.query_objects`. -/
structure QueryResult where
  results : List String
  trace_id : String
  total_count : Nat
  execution_time_ms : Nat
deriving Repr, DecidableEq

/-- `MockAmpClient.query_objects` of `python_basic.py` (default limit 10 in
the source): ignores `text`, `limit` and every stored object, returning the
canned response `results=[]`, fresh `trace_id`, `total_count=0`,
`execution_time_ms=42`. -/
def query_objects (s : ClientState) (text : String) (limit : Nat) :
    QueryResult × ClientState :=
  let (u, s1) := freshUuid s
  ({ results := [], trace_id := u, total_count := 0, execution_time_ms := 42 }, s1)

/-- Modelled from the spec: the store's in-place mutation of a Symbol object,
absent from the sources — section 3 (objects "may be updated in place, bumping
`updated_at` and appending/replacing `provenance`") and section 4.3
(`updated_at` is set by the store at every successful mutation). -/
def update_symbol (s : ClientState) (obj : SymbolObject) (prov : Provenance) :
    SymbolObject × ClientState :=
  let (t, s1) := now s
  ({ obj with updated_at := t, provenance := prov }, s1)

/-- Modelled from the spec: the store's in-place mutation of a Decision
object, absent from the sources (same clauses as `update_symbol`). -/
def update_decision (s : ClientState) (obj : DecisionObject) (prov : Provenance) :
    DecisionObject × ClientState :=
  let (t, s1) := now s
  ({ obj with updated_at := t, provenance := prov }, s1)

/-- Trimming trailing blanks never lengthens a block. -/
theorem dropTrailingBlanks_length_le (ls : List (List Char)) :
    (dropTrailingBlanks ls).length ≤ ls.length := by
  have h1 : (ls.reverse.dropWhile isBlank).length ≤ ls.reverse.length :=
    (List.dropWhile_sublist _).length_le
  simpa [dropTrailingBlanks] using h1

/-- A construct's body never extends past the remaining lines. -/
theorem bodyLen_le (i : Nat) (rest : List (List Char)) : bodyLen i rest ≤ rest.length :=
  le_trans (dropTrailingBlanks_length_le _) (List.takeWhile_sublist _).length_le

/-- Every method construct scanned from a block starting at line `i` has a
well-ordered span that stays inside the block. -/
theorem scanMethods_spans (ls : List (List Char)) : ∀ (i : Nat) (c : RawConstruct),
    c ∈ scanMethods i ls → c.start_line ≤ c.end_line ∧ c.end_line < i + ls.length := by
  induction ls with
  | nil => intro i c h; simp [scanMethods] at h
  | cons l rest ih =>
    intro i c h
    simp only [scanMethods] at h
    split at h
    · rcases List.mem_cons.mp h with h1 | h2
      · subst h1
        refine ⟨Nat.le_add_right _ _, ?_⟩
        have hb := bodyLen_le (indentOf l) rest
        simp only [List.length_cons]
        omega
      · have := ih (i+1) c h2
        simp only [List.length_cons]
        omega
    · have := ih (i+1) c h
      simp only [List.length_cons]
      omega

/-- Every construct scanned from a list of lines starting at line `i` has a
well-ordered span that stays inside those lines. -/
theorem scanTop_spans (ls : List (List Char)) : ∀ (i : Nat) (c : RawConstruct),
    c ∈ scanTop i ls → c.start_line ≤ c.end_line ∧ c.end_line < i + ls.length := by
  induction ls with
  | nil => intro i c h; simp [scanTop] at h
  | cons l rest ih =>
    intro i c h
    simp only [scanTop] at h
    split at h
    · have := ih (i+1) c h
      simp only [List.length_cons]
      omega
    · split at h
      · rcases List.mem_cons.mp h with h1 | h2
        · subst h1
          refine ⟨Nat.le_add_right _ _, ?_⟩
          have hb := bodyLen_le 0 rest
          simp only [List.length_cons]
          omega
        · have := ih (i+1) c h2
          simp only [List.length_cons]
          omega
      · split at h
        · rcases List.mem_cons.mp h with h1 | h2
          · subst h1
            refine ⟨Nat.le_add_right _ _, ?_⟩
            have hb := bodyLen_le 0 rest
            simp only [List.length_cons]
            omega
          · rcases List.mem_append.mp h2 with h3 | h4
            · have hm := scanMethods_spans _ (i+1) c h3
              have hlen : (rest.takeWhile (isBodyLine 0)).length ≤ rest.length :=
                (List.takeWhile_sublist _).length_le
              simp only [List.length_cons]
              omega
            · have := ih (i+1) c h4
              simp only [List.length_cons]
              omega
        · split at h
          · rcases List.mem_cons.mp h with h1 | h2
            · subst h1
              exact ⟨Nat.le_refl _, by simp only [List.length_cons]; omega⟩
            · have := ih (i+1) c h2
              simp only [List.length_cons]
              omega
          · have := ih (i+1) c h
            simp only [List.length_cons]
            omega

/-- The uuid supply yields strings whose length records the counter. -/
theorem genUuid_length (n : Nat) : (genUuid n).length = n + 1 := by
  rw [genUuid, String.length_mk, List.length_replicate]

/-- The uuid supply never yields the empty string. -/
theorem genUuid_ne_empty (n : Nat) : genUuid n ≠ "" := by
  intro h
  have hl := congrArg String.length h
  rw [genUuid_length, String.length_empty] at hl
  omega

/-- The uuid supply is injective: distinct counters give distinct ids. -/
theorem genUuid_inj {a b : Nat} (h : genUuid a = genUuid b) : a = b := by
  have hl := congrArg String.length h
  rw [genUuid_length, genUuid_length] at hl
  omega

/-- A string with a non-empty left part is non-empty. -/
theorem append_ne_empty_left (a b : String) (h : 0 < a.length) : a ++ b ≠ "" := by
  intro he
  have hl := congrArg String.length he
  rw [String.length_append, String.length_empty] at hl
  omega

/-- C1: the claimed outcome is refuted on the exact fixture of
`test_parser_fix.py`: the fixture holds two top-level assignments
(`test_variable` and `another_var`), so the extracted kind multiset is not
`{function, class, method, method, variable}`. -/
theorem C1_counterexample :
    extract "/tmp/test.py" fixtureContent "python" = Except.ok (fixtureSymbols, []) ∧
    Multiset.ofList (fixtureSymbols.map Symbol.symbol_type) ≠
      ({"function", "class", "method", "method", "variable"} : Multiset String) :=
  ⟨rfl, by decide⟩

/-- C1 (amended): on the fixture, `extract` returns six symbols whose kind
multiset is exactly `{function, class, method, method, variable, variable}`
— one function, one class, two methods and two variables — with no `unknown`
entries. -/
theorem C1_fixture_kind_multiset :
    extract "/tmp/test.py" fixtureContent "python" = Except.ok (fixtureSymbols, []) ∧
    Multiset.ofList (fixtureSymbols.map Symbol.symbol_type) =
      ({"function", "class", "method", "method", "variable", "variable"} : Multiset String) ∧
    "unknown" ∉ fixtureSymbols.map Symbol.symbol_type :=
  ⟨rfl, by decide, by decide⟩

/-- C2: a query against a store with no matching objects never fails: for
every client state, query text and limit, the result is the empty sequence
with `total_count = 0`, a non-empty freshly generated `trace_id`, and the
`execution_time_ms` field present in the output. -/
theorem C2_zero_match_query (s : ClientState) (text : String) (limit : Nat) :
    (query_objects s text limit).1.results = [] ∧
    (query_objects s text limit).1.total_count = 0 ∧
    (query_objects s text limit).1.trace_id ≠ "" ∧
    (query_objects s text limit).1.execution_time_ms = 42 :=
  ⟨rfl, rfl, genUuid_ne_empty s.uuidCounter, rfl⟩

/-- C3: two distinct invocations of the query operation — the second running
in the state the first left behind — return distinct `trace_id` values: trace
identifiers are drawn fresh from the uuid supply at every call. -/
theorem C3_trace_ids_distinct (s : ClientState) (t1 t2 : String) (l1 l2 : Nat) :
    (query_objects s t1 l1).1.trace_id ≠
      (query_objects (query_objects s t1 l1).2 t2 l2).1.trace_id := by
  intro h
  have h2 : genUuid s.uuidCounter = genUuid (s.uuidCounter + 1) := h
  have h3 := genUuid_inj h2
  omega

/-- C4: creating a Decision (the client's `create_decision` takes no status
argument, so no status is ever explicitly supplied) yields an object whose
`status` field equals `accepted`. -/
theorem C4_decision_default_status (s : ClientState)
    (title problem rationale outcome : String) :
    (create_decision s title problem rationale outcome).1.status = "accepted" :=
  rfl

/-- C5: for Symbol and Decision objects alike, `updated_at >= created_at`
holds at creation and after each of two successive mutations, `created_at` is
never changed by a mutation, and `updated_at` is monotonically non-decreasing
across the mutation history. -/
theorem C5_timestamp_monotonicity (s s' : ClientState)
    (name kind path language title problem rationale outcome : String)
    (p1 p2 q1 q2 : Provenance) :
    (let (obj0, sA) := create_symbol s name kind path language
     let (obj1, sB) := update_symbol sA obj0 p1
     let (obj2, _) := update_symbol sB obj1 p2
     obj0.created_at ≤ obj0.updated_at ∧
     obj1.created_at = obj0.created_at ∧ obj0.updated_at ≤ obj1.updated_at ∧
     obj2.created_at = obj0.created_at ∧ obj1.updated_at ≤ obj2.updated_at ∧
     obj2.created_at ≤ obj2.updated_at) ∧
    (let (dec0, sA) := create_decision s' title problem rationale outcome
     let (dec1, sB) := update_decision sA dec0 q1
     let (dec2, _) := update_decision sB dec1 q2
     dec0.created_at ≤ dec0.updated_at ∧
     dec1.created_at = dec0.created_at ∧ dec0.updated_at ≤ dec1.updated_at ∧
     dec2.created_at = dec0.created_at ∧ dec1.updated_at ≤ dec2.updated_at ∧
     dec2.created_at ≤ dec2.updated_at) := by
  constructor
  · exact ⟨Nat.le_succ _, rfl, Nat.le_succ _, rfl, Nat.le_succ _, Nat.le_add_right _ 3⟩
  · exact ⟨Nat.le_succ _, rfl, Nat.le_succ _, rfl, Nat.le_succ _, Nat.le_add_right _ 3⟩

/-- C6: every object the client creates carries a non-empty provenance
record: both the `agent` string and the `summary` string are non-empty, for
all argument values. -/
theorem C6_provenance_nonempty (s s' : ClientState)
    (name kind path language title problem rationale outcome : String) :
    ((create_symbol s name kind path language).1.provenance.agent ≠ "" ∧
     (create_symbol s name kind path language).1.provenance.summary ≠ "") ∧
    ((create_decision s' title problem rationale outcome).1.provenance.agent ≠ "" ∧
     (create_decision s' title problem rationale outcome).1.provenance.summary ≠ "") := by
  refine ⟨⟨?_, ?_⟩, ⟨?_, ?_⟩⟩
  · show "python_example" ≠ ""
    decide
  · show "Created symbol " ++ name ≠ ""
    exact append_ne_empty_left _ _ (by decide)
  · show "python_example" ≠ ""
    decide
  · show "Made decision: " ++ title ≠ ""
    exact append_ne_empty_left _ _ (by decide)

/-- C7: every Symbol of a parse response has a zero-based span with
`start_line <= end_line`, both lying within `[0, line_count_of content)`. -/
theorem C7_span_validity (fp content lang : String) (syms : List Symbol)
    (diags : List String) (sym : Symbol)
    (hok : extract fp content lang = Except.ok (syms, diags)) (hmem : sym ∈ syms) :
    sym.start_line ≤ sym.end_line ∧ sym.start_line < lineCountOf content ∧
      sym.end_line < lineCountOf content := by
  unfold extract at hok
  split at hok
  · injection hok with hpair
    injection hpair with hs hd
    subst hs
    obtain ⟨c, hc, hsym⟩ := List.mem_map.mp hmem
    have hspans := scanTop_spans (linesOf content) 0 c hc
    have h1 : sym.start_line = c.start_line := by rw [← hsym]
    have h2 : sym.end_line = c.end_line := by rw [← hsym]
    rw [h1, h2]
    have ha := hspans.1
    have hb := hspans.2
    refine ⟨ha, ?_, ?_⟩ <;> · simp only [lineCountOf]; omega
  · exact absurd hok (by simp)

/-- C7 witness: the span facts instantiated on the fixture's first symbol,
the `hello_world` function spanning lines 1 to 3 of the 19-line fixture. -/
theorem C7_span_validity_witness :
    (extract "/tmp/test.py" fixtureContent "python" =
        Except.ok (fixtureSymbols, []) ∧ fixtureSym0 ∈ fixtureSymbols) ∧
    (fixtureSym0.start_line ≤ fixtureSym0.end_line ∧
     fixtureSym0.start_line < lineCountOf fixtureContent ∧
     fixtureSym0.end_line < lineCountOf fixtureContent) :=
  ⟨⟨rfl, by decide⟩,
   C7_span_validity "/tmp/test.py" fixtureContent "python" fixtureSymbols []
     fixtureSym0 rfl (by decide)⟩

/-- C8: the claim that `execution_time_ms` measures the invocation's
wall-clock duration is refuted at explicit inputs: the call consumes no time
(the clock is unchanged) yet reports 42, and two invocations with different
states, texts and limits report the same value. -/
theorem C8_counterexample :
    (query_objects ⟨0, 0⟩ "rust functions" 10).1.execution_time_ms = 42 ∧
    (query_objects ⟨0, 0⟩ "rust functions" 10).2.clock =
      (⟨0, 0⟩ : ClientState).clock ∧
    (query_objects ⟨37, 11⟩ "graph database schema" 3).1.execution_time_ms = 42 :=
  ⟨rfl, rfl, rfl⟩

/-- C8 (amended): `execution_time_ms` is the hardcoded constant 42,
independent of the query's actual execution — the mock performs no timing
measurement and leaves the clock untouched. -/
theorem C8_execution_time_constant (s : ClientState) (text : String) (limit : Nat) :
    (query_objects s text limit).1.execution_time_ms = 42 ∧
    (query_objects s text limit).2.clock = s.clock :=
  ⟨rfl, rfl⟩

/-- C9: every object created through `create_symbol` or `create_decision` is
placed in the fixed scope `tenant_id = "default"`,
`project_id = "example_project"`, for all argument values — the caller cannot
select any other scope. -/
theorem C9_fixed_scope (s s' : ClientState)
    (name kind path language title problem rationale outcome : String) :
    ((create_symbol s name kind path language).1.tenant_id = "default" ∧
     (create_symbol s name kind path language).1.project_id = "example_project") ∧
    ((create_decision s' title problem rationale outcome).1.tenant_id = "default" ∧
     (create_decision s' title problem rationale outcome).1.project_id = "example_project") :=
  ⟨⟨rfl, rfl⟩, ⟨rfl, rfl⟩⟩

/-- C10: apart from `trace_id`, the query output is identical for every
client state, query text and limit: `results` is always empty, `total_count`
always 0 and `execution_time_ms` always 42, independent of any previously
created objects. -/
theorem C10_query_output_constant (s : ClientState) (text : String) (limit : Nat) :
    (query_objects s text limit).1.results = [] ∧
    (query_objects s text limit).1.total_count = 0 ∧
    (query_objects s text limit).1.execution_time_ms = 42 :=
  ⟨rfl, rfl, rfl⟩

end AMP
